import Mathlib

/-!
Verification development for the `lengths` Go package: a `Length` value type
storing an exact nanometer count (`uint64`), unit constants, floating-point
accessors and converting constructors, a feet-and-inches decomposition, and a
human-readable `String` formatter.

Modeling conventions:
* `Length` (Go `uint64`) is modeled as `Nat`.  The package only uses division,
  modulo and comparison on `Length`, which agree with `uint64` semantics for
  in-range values; no operation here can overflow.
* `float64` is modeled as `ℚ` with exact arithmetic.  The Go conversion
  `Length(x)` from `float64` to `uint64` truncates toward zero, which for the
  supported non-negative domain is `Nat.floor`; negative or out-of-range input
  is implementation-defined in Go and outside the supported input domain.
* Go `strconv.FormatFloat(f, 'f', -1, 64)` (shortest round-tripping decimal)
  is modeled as the exact decimal expansion with trailing zeros stripped.  All
  values the package formats are rationals whose denominator divides `10^12`,
  with few significant digits, where the shortest round-trip representation is
  exactly the finite decimal expansion.

The file embeds the two source variants: `lengths.go` (which defines a
`Kilometer` unit and formats zero as `"0"`) and the unnamed variant
(`src/unnamed/part_000`, which caps units at `Meter` and formats zero as
`"0nm"`).  All definitions other than `String` are textually identical in the
two variants and are embedded once.
-/

namespace lengths

/-- Go: `type Length uint64`, a nanometer count. -/
abbrev Length := Nat

/-- Go: `Nanometer Length = 1`. -/
def Nanometer : ℕ := 1

/-- Go: `Micrometer = 1e3 * Nanometer`. -/
def Micrometer : ℕ := 1000 * Nanometer

/-- Go: `Millimeter = 1e6 * Nanometer`. -/
def Millimeter : ℕ := 1000000 * Nanometer

/-- Go: `Centimeter = 1e7 * Nanometer`. -/
def Centimeter : ℕ := 10000000 * Nanometer

/-- Go: `Meter = 1e9 * Nanometer`. -/
def Meter : ℕ := 1000000000 * Nanometer

/-- Go (lengths.go variant only): `Kilometer = 1e12 * Nanometer`. -/
def Kilometer : ℕ := 1000000000000 * Nanometer

/-- Go: `Inch = 254e5 * Nanometer`. -/
def Inch : ℕ := 25400000 * Nanometer

/-- Go: `Foot = 3048e5 * Nanometer`. -/
def Foot : ℕ := 304800000 * Nanometer

/-- Go conversion `Length(x)` from `float64` to `uint64`: truncation toward
zero, which on the supported non-negative domain is the floor.  (For negative
`x`, Go leaves the conversion implementation-defined; `Nat.floor` maps those
to `0`, and no claim depends on that case.) -/
def toLength (x : ℚ) : ℕ := Nat.floor x

/-- Go: `func (l Length) Micrometers() float64 \x7b return float64(l/Micrometer) + float64(l%Micrometer)/1e3 \x7d`. -/
def Length.Micrometers (l : ℕ) : ℚ :=
  ((l / Micrometer : ℕ) : ℚ) + ((l % Micrometer : ℕ) : ℚ) / 1000

/-- Go: `func (l Length) Millimeters() float64`, dividing the remainder by `1e6`. -/
def Length.Millimeters (l : ℕ) : ℚ :=
  ((l / Millimeter : ℕ) : ℚ) + ((l % Millimeter : ℕ) : ℚ) / 1000000

/-- Go: `func (l Length) Centimeters() float64`, dividing the remainder by `1e7`. -/
def Length.Centimeters (l : ℕ) : ℚ :=
  ((l / Centimeter : ℕ) : ℚ) + ((l % Centimeter : ℕ) : ℚ) / 10000000

/-- Go: `func (l Length) Meters() float64`, dividing the remainder by `1e9`. -/
def Length.Meters (l : ℕ) : ℚ :=
  ((l / Meter : ℕ) : ℚ) + ((l % Meter : ℕ) : ℚ) / 1000000000

/-- Go (lengths.go variant only): `func (l Length) Kilometers() float64`, dividing the remainder by `1e12`. -/
def Length.Kilometers (l : ℕ) : ℚ :=
  ((l / Kilometer : ℕ) : ℚ) + ((l % Kilometer : ℕ) : ℚ) / 1000000000000

/-- Go: `func (l Length) Inches() float64`, dividing the remainder by `254e5`. -/
def Length.Inches (l : ℕ) : ℚ :=
  ((l / Inch : ℕ) : ℚ) + ((l % Inch : ℕ) : ℚ) / 25400000

/-- Go: `func (l Length) FeetAndInches() (float64, float64)`:
`feet := l / Foot; inches := l % Foot; return float64(feet), inches.Inches()`. -/
def Length.FeetAndInches (l : ℕ) : ℚ × ℚ :=
  (((l / Foot : ℕ) : ℚ), Length.Inches (l % Foot))

/-- Go: `func Millimeters(f float64) Length \x7b return Length(f * float64(Millimeter)) \x7d`. -/
def Millimeters (f : ℚ) : ℕ := toLength (f * (Millimeter : ℚ))

/-- Go: `func Centimeters(f float64) Length`. -/
def Centimeters (f : ℚ) : ℕ := toLength (f * (Centimeter : ℚ))

/-- Go: `func Meters(f float64) Length`. -/
def Meters (f : ℚ) : ℕ := toLength (f * (Meter : ℚ))

/-- Go (lengths.go variant only): `func Kilometers(f float64) Length`. -/
def Kilometers (f : ℚ) : ℕ := toLength (f * (Kilometer : ℚ))

/-- Go: `func Inches(f float64) Length`. -/
def Inches (f : ℚ) : ℕ := toLength (f * (Inch : ℚ))

/-- Go: `func Feet(f float64) Length`. -/
def Feet (f : ℚ) : ℕ := toLength (f * (Foot : ℚ))

/-- The two-step whole-units-plus-remainder formula written in the spec
(section 4.2): `float(wholeUnits) + float(remainderNano) / float(Ku)`.
Stated from the spec text, to be compared with the per-unit accessors. -/
def toUnit (l : ℕ) (Ku : ℕ) : ℚ :=
  ((l / Ku : ℕ) : ℚ) + ((l % Ku : ℕ) : ℚ) / (Ku : ℚ)

/-- The character of a decimal digit `d < 10`. -/
def digitChar (d : ℕ) : Char := Char.ofNat (48 + d)

/-- Most-significant-first decimal digits of `n`, with fuel (enough fuel gives
all digits; any positive fuel gives a non-empty suffix ending in `n % 10`). -/
def natDigitsAux : ℕ → ℕ → List ℕ
  | 0, _ => []
  | fuel + 1, n => if n < 10 then [n] else natDigitsAux fuel (n / 10) ++ [n % 10]

/-- Most-significant-first decimal digits of `n`.  Thirty digits of fuel cover
every `uint64` value. -/
def natDigits (n : ℕ) : List ℕ := natDigitsAux 30 n

/-- Decimal representation of a natural number, as Go `fmt.Sprintf("%d", n)`. -/
def natRepr (n : ℕ) : String := String.mk ((natDigits n).map digitChar)

/-- The `k` low-order decimal digits of `m`, most significant first, padded
with leading zeros to exactly `k` digits. -/
def padDigits : ℕ → ℕ → List ℕ
  | 0, _ => []
  | k + 1, m => padDigits k (m / 10) ++ [m % 10]

/-- Remove trailing zeros from a digit list. -/
def stripZeros : List ℕ → List ℕ
  | [] => []
  | d :: ds =>
    if stripZeros ds = [] then (if d = 0 then [] else [d])
    else d :: stripZeros ds

/-- Decimal rendering of the rational `n / 10^12` for a natural `n`: integer
part, then the fractional digits with trailing zeros stripped, with no decimal
point when the fraction is zero. -/
def formatScaled (n : ℕ) : String :=
  if stripZeros (padDigits 12 (n % 10 ^ 12)) = [] then natRepr (n / 10 ^ 12)
  else natRepr (n / 10 ^ 12) ++ "." ++
    String.mk ((stripZeros (padDigits 12 (n % 10 ^ 12))).map digitChar)

/-- Model of Go `strconv.FormatFloat(f, 'f', -1, 64)` (shortest decimal that
round-trips), for the values this package formats: non-negative rationals
whose denominator divides `10^12`, printed as the exact decimal expansion with
trailing zeros stripped and no decimal point when the fraction is zero.  For
such rationals `q * 10^12` is a non-negative integer and the floor recovers it
exactly. -/
def formatFloat (q : ℚ) : String := formatScaled (Nat.floor (q * 10 ^ 12))

/-- Go `func (l Length) String() string` from `src/unnamed/part_000` (the
variant without a kilometer unit, which formats zero as `"0nm"` and caps the
display unit at meters). -/
def Length.StringPart000 (l : ℕ) : String :=
  if l < Nanometer then "0nm"
  else if l < Micrometer then natRepr (l / Nanometer) ++ "nm"
  else if l < Millimeter then formatFloat (Length.Micrometers l) ++ "μm"
  else if l < Centimeter then formatFloat (Length.Millimeters l) ++ "mm"
  else if l < Meter then formatFloat (Length.Centimeters l) ++ "cm"
  else formatFloat (Length.Meters l) ++ "m"

/-- Go `func (l Length) String() string` from `lengths.go` (the variant with a
kilometer tier, which formats zero as `"0"`). -/
def Length.String (l : ℕ) : String :=
  if l < Nanometer then "0"
  else if l < Micrometer then natRepr (l / Nanometer) ++ "nm"
  else if l < Millimeter then formatFloat (Length.Micrometers l) ++ "μm"
  else if l < Centimeter then formatFloat (Length.Millimeters l) ++ "mm"
  else if l < Meter then formatFloat (Length.Centimeters l) ++ "cm"
  else if l < Kilometer then formatFloat (Length.Meters l) ++ "m"
  else formatFloat (Length.Kilometers l) ++ "km"

/-! ### Helper lemmas: numeric values of the unit constants -/

lemma Nanometer_eq : Nanometer = 1 := rfl

lemma Micrometer_eq : Micrometer = 1000 := rfl

lemma Millimeter_eq : Millimeter = 1000000 := rfl

lemma Centimeter_eq : Centimeter = 10000000 := rfl

lemma Meter_eq : Meter = 1000000000 := rfl

lemma Kilometer_eq : Kilometer = 1000000000000 := rfl

lemma Inch_eq : Inch = 25400000 := rfl

lemma Foot_eq : Foot = 304800000 := rfl

/-! ### Helper lemmas: the two-step accessor computation is exact division -/

lemma div_add_mod_div (l K : ℕ) (hK : (K : ℚ) ≠ 0) :
    ((l / K : ℕ) : ℚ) + ((l % K : ℕ) : ℚ) / (K : ℚ) = (l : ℚ) / K := by
  rw [eq_div_iff hK, add_mul, div_mul_cancel₀ _ hK]
  rw [show ((l : ℚ)) = ((K * (l / K) + l % K : ℕ) : ℚ) from by rw [Nat.div_add_mod]]
  push_cast
  ring

lemma Micrometers_eq (l : ℕ) : Length.Micrometers l = (l : ℚ) / 1000 := by
  simpa [Length.Micrometers, Micrometer_eq] using div_add_mod_div l 1000 (by norm_num)

lemma Millimeters_eq (l : ℕ) : Length.Millimeters l = (l : ℚ) / 1000000 := by
  simpa [Length.Millimeters, Millimeter_eq] using div_add_mod_div l 1000000 (by norm_num)

lemma Centimeters_eq (l : ℕ) : Length.Centimeters l = (l : ℚ) / 10000000 := by
  simpa [Length.Centimeters, Centimeter_eq] using div_add_mod_div l 10000000 (by norm_num)

lemma Meters_eq (l : ℕ) : Length.Meters l = (l : ℚ) / 1000000000 := by
  simpa [Length.Meters, Meter_eq] using div_add_mod_div l 1000000000 (by norm_num)

lemma Kilometers_eq (l : ℕ) : Length.Kilometers l = (l : ℚ) / 1000000000000 := by
  simpa [Length.Kilometers, Kilometer_eq] using div_add_mod_div l 1000000000000 (by norm_num)

lemma Inches_eq (l : ℕ) : Length.Inches l = (l : ℚ) / 25400000 := by
  simpa [Length.Inches, Inch_eq] using div_add_mod_div l 25400000 (by norm_num)

/-! ### Helper lemmas: floor-based constructors -/

lemma toLength_le (x : ℚ) (hx : 0 ≤ x) : ((toLength x : ℕ) : ℚ) ≤ x :=
  Nat.floor_le hx

lemma lt_toLength_add_one (x : ℚ) : x < ((toLength x : ℕ) : ℚ) + 1 :=
  Nat.lt_floor_add_one x

lemma cast_div_nonneg_zero_iff (l K : ℕ) (hK : 0 < K) :
    0 ≤ (l : ℚ) / (K : ℚ) ∧ ((l : ℚ) / (K : ℚ) = 0 ↔ l = 0) := by
  have hK0 : (0 : ℚ) < (K : ℚ) := by exact_mod_cast hK
  refine ⟨div_nonneg (Nat.cast_nonneg l) hK0.le, ?_⟩
  rw [div_eq_zero_iff]
  constructor
  · rintro (h | h)
    · exact_mod_cast h
    · exact absurd h hK0.ne'
  · intro h
    left
    exact_mod_cast h

lemma floor_roundtrip (K : ℕ) (hK : 0 < K) (f : ℚ) (hf : 0 ≤ f) :
    |((Nat.floor (f * (K : ℚ)) : ℕ) : ℚ) / (K : ℚ) - f| < 1 / (K : ℚ) := by
  have hK0 : (0 : ℚ) < (K : ℚ) := by exact_mod_cast hK
  have h1 : ((Nat.floor (f * (K : ℚ)) : ℕ) : ℚ) ≤ f * K :=
    Nat.floor_le (mul_nonneg hf hK0.le)
  have h2 : f * K < ((Nat.floor (f * (K : ℚ)) : ℕ) : ℚ) + 1 :=
    Nat.lt_floor_add_one (f * (K : ℚ))
  have hle : ((Nat.floor (f * (K : ℚ)) : ℕ) : ℚ) / K ≤ f := (div_le_iff₀ hK0).mpr h1
  have hlt : f < ((Nat.floor (f * (K : ℚ)) : ℕ) : ℚ) / K + 1 / K := by
    rw [div_add_div_same, lt_div_iff₀ hK0]
    linarith
  have hpos : (0 : ℚ) < 1 / K := by positivity
  rw [abs_sub_lt_iff]
  constructor <;> linarith

/-! ### Helper lemmas: the String formatter -/

lemma formatFloat_eval (q : ℚ) (n : ℕ) (h : q * 10 ^ 12 = (n : ℚ)) :
    formatFloat q = formatScaled n := by
  rw [formatFloat, h, Nat.floor_natCast]

lemma String_nm (l : ℕ) (h1 : Nanometer ≤ l) (h2 : l < Micrometer) :
    Length.String l = natRepr (l / Nanometer) ++ "nm" := by
  rw [Nanometer_eq] at h1
  rw [Micrometer_eq] at h2
  have c0 : ¬ l < Nanometer := by rw [Nanometer_eq]; omega
  have c1 : l < Micrometer := by rw [Micrometer_eq]; omega
  unfold Length.String
  rw [if_neg c0, if_pos c1]

lemma String_um (l : ℕ) (h1 : Micrometer ≤ l) (h2 : l < Millimeter) :
    Length.String l = formatFloat (Length.Micrometers l) ++ "μm" := by
  rw [Micrometer_eq] at h1
  rw [Millimeter_eq] at h2
  have c0 : ¬ l < Nanometer := by rw [Nanometer_eq]; omega
  have c1 : ¬ l < Micrometer := by rw [Micrometer_eq]; omega
  have c2 : l < Millimeter := by rw [Millimeter_eq]; omega
  unfold Length.String
  rw [if_neg c0, if_neg c1, if_pos c2]

lemma String_mm (l : ℕ) (h1 : Millimeter ≤ l) (h2 : l < Centimeter) :
    Length.String l = formatFloat (Length.Millimeters l) ++ "mm" := by
  rw [Millimeter_eq] at h1
  rw [Centimeter_eq] at h2
  have c0 : ¬ l < Nanometer := by rw [Nanometer_eq]; omega
  have c1 : ¬ l < Micrometer := by rw [Micrometer_eq]; omega
  have c2 : ¬ l < Millimeter := by rw [Millimeter_eq]; omega
  have c3 : l < Centimeter := by rw [Centimeter_eq]; omega
  unfold Length.String
  rw [if_neg c0, if_neg c1, if_neg c2, if_pos c3]

lemma String_cm (l : ℕ) (h1 : Centimeter ≤ l) (h2 : l < Meter) :
    Length.String l = formatFloat (Length.Centimeters l) ++ "cm" := by
  rw [Centimeter_eq] at h1
  rw [Meter_eq] at h2
  have c0 : ¬ l < Nanometer := by rw [Nanometer_eq]; omega
  have c1 : ¬ l < Micrometer := by rw [Micrometer_eq]; omega
  have c2 : ¬ l < Millimeter := by rw [Millimeter_eq]; omega
  have c3 : ¬ l < Centimeter := by rw [Centimeter_eq]; omega
  have c4 : l < Meter := by rw [Meter_eq]; omega
  unfold Length.String
  rw [if_neg c0, if_neg c1, if_neg c2, if_neg c3, if_pos c4]

lemma String_m (l : ℕ) (h1 : Meter ≤ l) (h2 : l < Kilometer) :
    Length.String l = formatFloat (Length.Meters l) ++ "m" := by
  rw [Meter_eq] at h1
  rw [Kilometer_eq] at h2
  have c0 : ¬ l < Nanometer := by rw [Nanometer_eq]; omega
  have c1 : ¬ l < Micrometer := by rw [Micrometer_eq]; omega
  have c2 : ¬ l < Millimeter := by rw [Millimeter_eq]; omega
  have c3 : ¬ l < Centimeter := by rw [Centimeter_eq]; omega
  have c4 : ¬ l < Meter := by rw [Meter_eq]; omega
  have c5 : l < Kilometer := by rw [Kilometer_eq]; omega
  unfold Length.String
  rw [if_neg c0, if_neg c1, if_neg c2, if_neg c3, if_neg c4, if_pos c5]

lemma String_km (l : ℕ) (h1 : Kilometer ≤ l) :
    Length.String l = formatFloat (Length.Kilometers l) ++ "km" := by
  rw [Kilometer_eq] at h1
  have c0 : ¬ l < Nanometer := by rw [Nanometer_eq]; omega
  have c1 : ¬ l < Micrometer := by rw [Micrometer_eq]; omega
  have c2 : ¬ l < Millimeter := by rw [Millimeter_eq]; omega
  have c3 : ¬ l < Centimeter := by rw [Centimeter_eq]; omega
  have c4 : ¬ l < Meter := by rw [Meter_eq]; omega
  have c5 : ¬ l < Kilometer := by rw [Kilometer_eq]; omega
  unfold Length.String
  rw [if_neg c0, if_neg c1, if_neg c2, if_neg c3, if_neg c4, if_neg c5]

lemma StringPart000_m (l : ℕ) (h1 : Meter ≤ l) :
    Length.StringPart000 l = formatFloat (Length.Meters l) ++ "m" := by
  rw [Meter_eq] at h1
  have c0 : ¬ l < Nanometer := by rw [Nanometer_eq]; omega
  have c1 : ¬ l < Micrometer := by rw [Micrometer_eq]; omega
  have c2 : ¬ l < Millimeter := by rw [Millimeter_eq]; omega
  have c3 : ¬ l < Centimeter := by rw [Centimeter_eq]; omega
  have c4 : ¬ l < Meter := by rw [Meter_eq]; omega
  unfold Length.StringPart000
  rw [if_neg c0, if_neg c1, if_neg c2, if_neg c3, if_neg c4]

/-! ### Helper lemmas: the last character of a formatted number is a digit -/

lemma natDigitsAux_getLast (fuel n : ℕ) :
    ∃ d, d < 10 ∧ (natDigitsAux (fuel + 1) n).getLast? = some d := by
  simp only [natDigitsAux]
  by_cases h : n < 10
  · rw [if_pos h]
    exact ⟨n, h, rfl⟩
  · rw [if_neg h]
    exact ⟨n % 10, Nat.mod_lt n (by norm_num), List.getLast?_concat _⟩

lemma natDigits_getLast (n : ℕ) :
    ∃ d, d < 10 ∧ (natDigits n).getLast? = some d := by
  rw [natDigits]
  exact natDigitsAux_getLast 29 n

lemma padDigits_mem_lt (k m d : ℕ) (hd : d ∈ padDigits k m) : d < 10 := by
  induction k generalizing m with
  | zero => simp [padDigits] at hd
  | succ k ih =>
    simp only [padDigits] at hd
    rcases List.mem_append.mp hd with h | h
    · exact ih (m / 10) h
    · simp at h
      subst h
      exact Nat.mod_lt m (by norm_num)

lemma stripZeros_mem (L : List ℕ) (d : ℕ) (hd : d ∈ stripZeros L) : d ∈ L := by
  induction L with
  | nil => simp [stripZeros] at hd
  | cons a as ih =>
    simp only [stripZeros] at hd
    split_ifs at hd with h1 h2
    · simp at hd
    · simp at hd
      subst hd
      exact List.mem_cons_self _ _
    · rcases List.mem_cons.mp hd with h | h
      · subst h
        exact List.mem_cons_self _ _
      · exact List.mem_cons_of_mem _ (ih h)

lemma natRepr_data (m : ℕ) : (natRepr m).data = (natDigits m).map digitChar := rfl

lemma formatScaled_getLast (n : ℕ) :
    ∃ d, d < 10 ∧ (formatScaled n).data.getLast? = some (digitChar d) := by
  unfold formatScaled
  obtain ⟨L, hL⟩ : ∃ L, stripZeros (padDigits 12 (n % 10 ^ 12)) = L :=
    ⟨stripZeros (padDigits 12 (n % 10 ^ 12)), rfl⟩
  rw [hL]
  split_ifs with h
  · obtain ⟨d, hd, hlast⟩ := natDigits_getLast (n / 10 ^ 12)
    refine ⟨d, hd, ?_⟩
    rw [natRepr_data, List.getLast?_map, hlast]
    rfl
  · have hne : L ≠ [] := h
    have hlt : ∀ d ∈ L, d < 10 := by
      intro d hd
      refine padDigits_mem_lt 12 (n % 10 ^ 12) d (stripZeros_mem _ d ?_)
      rw [hL]
      exact hd
    refine ⟨L.getLast hne, hlt _ (List.getLast_mem hne), ?_⟩
    rw [String.data_append (natRepr (n / 10 ^ 12) ++ ".") (String.mk (L.map digitChar))]
    have hmk : (String.mk (L.map digitChar)).data = L.map digitChar := rfl
    rw [hmk]
    have hmapne : L.map digitChar ≠ [] := by simp [hne]
    rw [List.getLast?_append_of_ne_nil _ hmapne, List.getLast?_map,
      List.getLast?_eq_getLast _ hne]
    rfl

lemma formatFloat_getLast (q : ℚ) :
    ∃ d, d < 10 ∧ (formatFloat q).data.getLast? = some (digitChar d) :=
  formatScaled_getLast _

lemma digitChar_ne_k (d : ℕ) (hd : d < 10) : digitChar d ≠ 'k' := by
  interval_cases d <;> decide

/-! ### Claim theorems: constructors and accessors -/

/-- Claim C1: for every non-negative floating-point unit count `f` and every
converting constructor (millimeters, centimeters, meters, kilometers, inches,
feet), the result is `Length(floor(f * nanometersPerUnit(U)))`: the product is
truncated toward zero to a whole nanometer count, never rounded to nearest and
never rounded up (the result never exceeds `f * Ku` and lies within one
nanometer below it). -/
theorem constructors_truncate (f : ℚ) (h : 0 ≤ f) :
    (Millimeters f = Nat.floor (f * (Millimeter : ℚ)) ∧
      ((Millimeters f : ℕ) : ℚ) ≤ f * (Millimeter : ℚ) ∧
      f * (Millimeter : ℚ) < ((Millimeters f : ℕ) : ℚ) + 1) ∧
    (Centimeters f = Nat.floor (f * (Centimeter : ℚ)) ∧
      ((Centimeters f : ℕ) : ℚ) ≤ f * (Centimeter : ℚ) ∧
      f * (Centimeter : ℚ) < ((Centimeters f : ℕ) : ℚ) + 1) ∧
    (Meters f = Nat.floor (f * (Meter : ℚ)) ∧
      ((Meters f : ℕ) : ℚ) ≤ f * (Meter : ℚ) ∧
      f * (Meter : ℚ) < ((Meters f : ℕ) : ℚ) + 1) ∧
    (Kilometers f = Nat.floor (f * (Kilometer : ℚ)) ∧
      ((Kilometers f : ℕ) : ℚ) ≤ f * (Kilometer : ℚ) ∧
      f * (Kilometer : ℚ) < ((Kilometers f : ℕ) : ℚ) + 1) ∧
    (Inches f = Nat.floor (f * (Inch : ℚ)) ∧
      ((Inches f : ℕ) : ℚ) ≤ f * (Inch : ℚ) ∧
      f * (Inch : ℚ) < ((Inches f : ℕ) : ℚ) + 1) ∧
    (Feet f = Nat.floor (f * (Foot : ℚ)) ∧
      ((Feet f : ℕ) : ℚ) ≤ f * (Foot : ℚ) ∧
      f * (Foot : ℚ) < ((Feet f : ℕ) : ℚ) + 1) := by
  refine ⟨⟨rfl, ?_, ?_⟩, ⟨rfl, ?_, ?_⟩, ⟨rfl, ?_, ?_⟩, ⟨rfl, ?_, ?_⟩, ⟨rfl, ?_, ?_⟩,
    ⟨rfl, ?_, ?_⟩⟩ <;>
  first
    | exact toLength_le _ (mul_nonneg h (Nat.cast_nonneg _))
    | exact lt_toLength_add_one _

/-- Witness for C1 at the concrete input `f = 3/2` (millimeter constructor):
`3/2` millimeters is exactly `1500000` nanometers. -/
theorem constructors_truncate_witness : Millimeters (3 / 2) = 1500000 := by
  have h := (constructors_truncate (3 / 2) (by norm_num)).1.1
  rw [h, Millimeter_eq]
  norm_num

/-- Claim C2: every floating-point accessor (micrometers, millimeters,
centimeters, meters, inches, kilometers) equals the two-step
whole-units-plus-remainder formula `float(l / Ku) + float(l % Ku) / float(Ku)`
with its own unit constant. -/
theorem accessors_two_step (l : ℕ) :
    Length.Micrometers l = toUnit l Micrometer ∧
    Length.Millimeters l = toUnit l Millimeter ∧
    Length.Centimeters l = toUnit l Centimeter ∧
    Length.Meters l = toUnit l Meter ∧
    Length.Inches l = toUnit l Inch ∧
    Length.Kilometers l = toUnit l Kilometer := by
  refine ⟨?_, ?_, ?_, ?_, ?_, ?_⟩ <;>
    simp [Length.Micrometers, Length.Millimeters, Length.Centimeters, Length.Meters,
      Length.Inches, Length.Kilometers, toUnit, Micrometer_eq, Millimeter_eq,
      Centimeter_eq, Meter_eq, Kilometer_eq, Inch_eq]

/-- Claim C3: every floating-point accessor is non-negative, and it is zero
exactly when the length is zero. -/
theorem accessors_nonneg_zero_iff (l : ℕ) :
    (0 ≤ Length.Micrometers l ∧ (Length.Micrometers l = 0 ↔ l = 0)) ∧
    (0 ≤ Length.Millimeters l ∧ (Length.Millimeters l = 0 ↔ l = 0)) ∧
    (0 ≤ Length.Centimeters l ∧ (Length.Centimeters l = 0 ↔ l = 0)) ∧
    (0 ≤ Length.Meters l ∧ (Length.Meters l = 0 ↔ l = 0)) ∧
    (0 ≤ Length.Inches l ∧ (Length.Inches l = 0 ↔ l = 0)) ∧
    (0 ≤ Length.Kilometers l ∧ (Length.Kilometers l = 0 ↔ l = 0)) := by
  refine ⟨?_, ?_, ?_, ?_, ?_, ?_⟩
  · rw [Micrometers_eq]
    simpa using cast_div_nonneg_zero_iff l 1000 (by norm_num)
  · rw [Millimeters_eq]
    simpa using cast_div_nonneg_zero_iff l 1000000 (by norm_num)
  · rw [Centimeters_eq]
    simpa using cast_div_nonneg_zero_iff l 10000000 (by norm_num)
  · rw [Meters_eq]
    simpa using cast_div_nonneg_zero_iff l 1000000000 (by norm_num)
  · rw [Inches_eq]
    simpa using cast_div_nonneg_zero_iff l 25400000 (by norm_num)
  · rw [Kilometers_eq]
    simpa using cast_div_nonneg_zero_iff l 1000000000000 (by norm_num)

/-- Claim C4: for every non-negative `f` and every unit with both a
constructor and an accessor (millimeters, centimeters, meters, kilometers,
inches), constructing from `f` units and reading back in the same unit is
within one nanometer worth of that unit: `|U(f).ToUnit(U) - f| < 1 / Ku`. -/
theorem roundtrip_bound (f : ℚ) (h : 0 ≤ f) :
    |Length.Millimeters (Millimeters f) - f| < 1 / (Millimeter : ℚ) ∧
    |Length.Centimeters (Centimeters f) - f| < 1 / (Centimeter : ℚ) ∧
    |Length.Meters (Meters f) - f| < 1 / (Meter : ℚ) ∧
    |Length.Kilometers (Kilometers f) - f| < 1 / (Kilometer : ℚ) ∧
    |Length.Inches (Inches f) - f| < 1 / (Inch : ℚ) := by
  refine ⟨?_, ?_, ?_, ?_, ?_⟩
  · rw [Millimeters_eq]
    simpa [Millimeters, toLength, Millimeter_eq] using
      floor_roundtrip 1000000 (by norm_num) f h
  · rw [Centimeters_eq]
    simpa [Centimeters, toLength, Centimeter_eq] using
      floor_roundtrip 10000000 (by norm_num) f h
  · rw [Meters_eq]
    simpa [Meters, toLength, Meter_eq] using
      floor_roundtrip 1000000000 (by norm_num) f h
  · rw [Kilometers_eq]
    simpa [Kilometers, toLength, Kilometer_eq] using
      floor_roundtrip 1000000000000 (by norm_num) f h
  · rw [Inches_eq]
    simpa [Inches, toLength, Inch_eq] using
      floor_roundtrip 25400000 (by norm_num) f h

/-- Witness for C4 at the concrete input `f = 3/2` (millimeter round trip). -/
theorem roundtrip_bound_witness :
    |Length.Millimeters (Millimeters (3 / 2)) - 3 / 2| < 1 / (Millimeter : ℚ) :=
  (roundtrip_bound (3 / 2) (by norm_num)).1

/-- Claim C7: `FeetAndInches` returns an integral feet component equal to the
whole-foot count `l / Foot`, an inches component with `0 ≤ inches < 12`, and
recombining `feet * Foot + round(inches * Inch)` recovers `l` within one
nanometer. -/
theorem feetAndInches_spec (l : ℕ) :
    (∃ n : ℕ, (Length.FeetAndInches l).1 = (n : ℚ)) ∧
    (Length.FeetAndInches l).1 = ((l / Foot : ℕ) : ℚ) ∧
    0 ≤ (Length.FeetAndInches l).2 ∧
    (Length.FeetAndInches l).2 < 12 ∧
    |(Length.FeetAndInches l).1 * (Foot : ℚ) +
        ((round ((Length.FeetAndInches l).2 * (Inch : ℚ)) : ℤ) : ℚ) - (l : ℚ)| ≤ 1 := by
  have hfeet : (Length.FeetAndInches l).1 = ((l / Foot : ℕ) : ℚ) := rfl
  have hinch : (Length.FeetAndInches l).2 = ((l % Foot : ℕ) : ℚ) / 25400000 :=
    Inches_eq (l % Foot)
  refine ⟨⟨l / Foot, rfl⟩, rfl, ?_, ?_, ?_⟩
  · rw [hinch]
    positivity
  · rw [hinch, div_lt_iff₀ (by norm_num : (0 : ℚ) < 25400000)]
    have hm : l % Foot < Foot := Nat.mod_lt l (by rw [Foot_eq]; norm_num)
    rw [Foot_eq] at hm
    calc ((l % Foot : ℕ) : ℚ) < 304800000 := by exact_mod_cast hm
    _ = 12 * 25400000 := by norm_num
  · rw [hfeet, hinch]
    have h1 : ((l % Foot : ℕ) : ℚ) / 25400000 * (Inch : ℚ) = ((l % Foot : ℕ) : ℚ) := by
      rw [Inch_eq]
      push_cast
      field_simp
    rw [h1, round_natCast]
    have h2 : ((l / Foot : ℕ) : ℚ) * (Foot : ℚ) + ((l % Foot : ℕ) : ℚ) = (l : ℚ) := by
      rw [show ((l : ℚ)) = ((Foot * (l / Foot) + l % Foot : ℕ) : ℚ) from by
        rw [Nat.div_add_mod]]
      push_cast
      ring
    have h3 : ((l / Foot : ℕ) : ℚ) * (Foot : ℚ) + (((l % Foot : ℕ) : ℤ) : ℚ) - (l : ℚ) = 0 := by
      rw [Int.cast_natCast]
      linarith
    rw [h3]
    norm_num

/-- Claim C9: the converting constructor `Inches` applied to `1.0` returns
exactly `25,400,000` nanometers, which is the `Inch` unit constant. -/
theorem inches_one_exact : Inches 1 = 25400000 ∧ Inches 1 = Inch := by
  have h : Inches 1 = 25400000 := by
    show toLength (1 * (Inch : ℚ)) = 25400000
    rw [toLength, Inch_eq]
    norm_num
  exact ⟨h, by rw [h, Inch_eq]⟩

/-- Witness for C2: the micrometer accessor instantiated at 1234 nm. -/
theorem accessors_two_step_witness :
    Length.Micrometers 1234 = toUnit 1234 Micrometer :=
  (accessors_two_step 1234).1

/-- Witness for C3: the micrometer accessor at 7 nm is non-negative. -/
theorem accessors_nonneg_zero_iff_witness : 0 ≤ Length.Micrometers 7 :=
  (accessors_nonneg_zero_iff 7).1.1

/-- Witness for C7: at 1.778 m (5 ft 10 in), the inches component is
non-negative and below twelve. -/
theorem feetAndInches_spec_witness :
    0 ≤ (Length.FeetAndInches 1778000000).2 ∧
      (Length.FeetAndInches 1778000000).2 < 12 :=
  ⟨(feetAndInches_spec 1778000000).2.2.1, (feetAndInches_spec 1778000000).2.2.2.1⟩

/-! ### Claim theorems: the String formatter -/

/-- Claim C5 (code bug): the spec and the package test table expect
`String(0) = "0nm"`, and the part_000 variant returns `"0nm"`, but the
lengths.go variant returns the bare string `"0"`, contradicting the first row
of `TestString` in `lengths_test.go`. -/
theorem string_zero_divergence :
    Length.String 0 = "0" ∧ Length.String 0 ≠ "0nm" ∧
      Length.StringPart000 0 = "0nm" := by
  refine ⟨?_, ?_, ?_⟩ <;> decide

/-- Claim C6: `String` selects its display unit by ascending magnitude
thresholds, each boundary inclusive on the upper unit: nanometers below one
micrometer, micrometers below one millimeter, millimeters below one
centimeter, centimeters below one meter, meters below one kilometer, and
kilometers from one kilometer on; in particular 999999 nm formats in
micrometers and 1000000 nm formats in millimeters. -/
theorem string_unit_selection :
    (∀ l : ℕ, Nanometer ≤ l → l < Micrometer →
      Length.String l = natRepr (l / Nanometer) ++ "nm") ∧
    (∀ l : ℕ, Micrometer ≤ l → l < Millimeter →
      Length.String l = formatFloat (Length.Micrometers l) ++ "μm") ∧
    (∀ l : ℕ, Millimeter ≤ l → l < Centimeter →
      Length.String l = formatFloat (Length.Millimeters l) ++ "mm") ∧
    (∀ l : ℕ, Centimeter ≤ l → l < Meter →
      Length.String l = formatFloat (Length.Centimeters l) ++ "cm") ∧
    (∀ l : ℕ, Meter ≤ l → l < Kilometer →
      Length.String l = formatFloat (Length.Meters l) ++ "m") ∧
    (∀ l : ℕ, Kilometer ≤ l →
      Length.String l = formatFloat (Length.Kilometers l) ++ "km") ∧
    Length.String 999999 = "999.999μm" ∧
    Length.String 1000000 = "1mm" := by
  refine ⟨String_nm, String_um, String_mm, String_cm, String_m, String_km, ?_, ?_⟩
  · rw [String_um 999999 (by decide) (by decide)]
    rw [formatFloat_eval (Length.Micrometers 999999) 999999000000000
      (by rw [Micrometers_eq]; norm_num)]
    decide
  · rw [String_mm 1000000 (by decide) (by decide)]
    rw [formatFloat_eval (Length.Millimeters 1000000) 1000000000000
      (by rw [Millimeters_eq]; norm_num)]
    decide

/-- Witness for C6: concrete instances of the nanometer and micrometer
threshold branches, at 999 nm and 543210 nm. -/
theorem string_unit_selection_witness :
    Length.String 999 = "999nm" ∧ Length.String 543210 = "543.21μm" := by
  constructor
  · rw [string_unit_selection.1 999 (by decide) (by decide)]
    decide
  · rw [string_unit_selection.2.1 543210 (by decide) (by decide)]
    rw [formatFloat_eval (Length.Micrometers 543210) 543210000000000
      (by rw [Micrometers_eq]; norm_num)]
    decide

/-- Claim C8: concrete `String` outputs with minimal digits: 1 nm, 1234 nm,
1234567 nm and 7654321000 nm format as "1nm", "1.234μm", "1.234567mm" and
"7.654321m" respectively. -/
theorem string_concrete :
    Length.String 1 = "1nm" ∧
    Length.String 1234 = "1.234μm" ∧
    Length.String 1234567 = "1.234567mm" ∧
    Length.String 7654321000 = "7.654321m" := by
  refine ⟨?_, ?_, ?_, ?_⟩
  · rw [String_nm 1 (by decide) (by decide)]
    decide
  · rw [String_um 1234 (by decide) (by decide)]
    rw [formatFloat_eval (Length.Micrometers 1234) 1234000000000
      (by rw [Micrometers_eq]; norm_num)]
    decide
  · rw [String_mm 1234567 (by decide) (by decide)]
    rw [formatFloat_eval (Length.Millimeters 1234567) 1234567000000
      (by rw [Millimeters_eq]; norm_num)]
    decide
  · rw [String_m 7654321000 (by decide) (by decide)]
    rw [formatFloat_eval (Length.Meters 7654321000) 7654321000000
      (by rw [Meters_eq]; norm_num)]
    decide

/-- Claim C10: the kilometer-capable String (lengths.go) and the meter-capped
String (part_000) agree on every length from one nanometer up to, but
excluding, one kilometer; they disagree at zero ("0" versus "0nm") and at
every length of one kilometer or more (kilometer formatting versus meter
formatting). -/
theorem string_variants_agree :
    (∀ l : ℕ, Nanometer ≤ l → l < Kilometer →
      Length.String l = Length.StringPart000 l) ∧
    Length.String 0 ≠ Length.StringPart000 0 ∧
    (∀ l : ℕ, Kilometer ≤ l → Length.String l ≠ Length.StringPart000 l) := by
  refine ⟨?_, by decide, ?_⟩
  · intro l h1 h2
    rw [Nanometer_eq] at h1
    rw [Kilometer_eq] at h2
    unfold Length.String Length.StringPart000
    simp only [Nanometer_eq, Micrometer_eq, Millimeter_eq, Centimeter_eq, Meter_eq,
      Kilometer_eq]
    split_ifs <;> first | rfl | omega
  · intro l hl
    have hgo : Length.String l = formatFloat (Length.Kilometers l) ++ "km" :=
      String_km l hl
    have hpart : Length.StringPart000 l = formatFloat (Length.Meters l) ++ "m" :=
      StringPart000_m l (by rw [Meter_eq]; rw [Kilometer_eq] at hl; omega)
    rw [hgo, hpart]
    intro heq
    have hdata := congrArg String.data heq
    rw [String.data_append (formatFloat (Length.Kilometers l)) "km",
      String.data_append (formatFloat (Length.Meters l)) "m"] at hdata
    have hkm : ("km" : String).data = ['k', 'm'] := rfl
    have hm2 : ("m" : String).data = ['m'] := rfl
    rw [hkm, hm2] at hdata
    have hassoc : (formatFloat (Length.Kilometers l)).data ++ ['k', 'm']
        = ((formatFloat (Length.Kilometers l)).data ++ ['k']) ++ ['m'] := by
      simp
    rw [hassoc] at hdata
    have hcancel := List.append_cancel_right hdata
    obtain ⟨d, hd, hlast⟩ := formatFloat_getLast (Length.Meters l)
    rw [← hcancel, List.getLast?_concat] at hlast
    exact digitChar_ne_k d hd (Option.some.inj hlast).symm

/-- Witness for C10: the two variants agree at 500 nm and disagree at exactly
one kilometer. -/
theorem string_variants_agree_witness :
    Length.String 500 = Length.StringPart000 500 ∧
    Length.String 1000000000000 ≠ Length.StringPart000 1000000000000 := by
  constructor
  · exact string_variants_agree.1 500 (by decide) (by decide)
  · exact string_variants_agree.2.2 1000000000000 (by decide)

end lengths
